import Mathlib

/-!
Shallow embedding of `src/resolve_prjct/app.js` (VisionAid): a voice-driven
accessibility assistant.  The DOM/event program is embedded as pure functions
over an explicit application state together with a trace of the side effects
(speech, camera requests, network fetches, scheduled timers) each handler
performs.  JavaScript string operations (`toLowerCase`, `trim`, `includes`)
are embedded at the character-list level, and JavaScript numbers on the
narrator path are embedded as rationals with `Math.round` made explicit.
-/

namespace VisionAid

/-! ### JavaScript string primitives -/

/-- JS `String.prototype.toLowerCase` (basic-latin case mapping). -/
def jsToLower (s : String) : String := ⟨s.data.map Char.toLower⟩

/-- Does `needle` occur as a contiguous substring of the character list? -/
def hasSubstr (needle : List Char) : List Char → Bool
  | [] => needle.isEmpty
  | c :: t => needle.isPrefixOf (c :: t) || hasSubstr needle t

/-- JS `String.prototype.includes`: substring containment. -/
def includes (hay needle : String) : Bool := hasSubstr needle.data hay.data

/-- JS `String.prototype.trim`: drop leading and trailing whitespace. -/
def jsTrim (s : String) : String :=
  ⟨((s.data.dropWhile Char.isWhitespace).reverse.dropWhile Char.isWhitespace).reverse⟩

/-- JS `Math.round`: round half toward positive infinity. -/
def jsRound (x : ℚ) : ℤ := Int.floor (x + 1/2)

/-! ### Data model -/

/-- One detection produced by the inference engine: `{class, score}` as the
cocoSsd predictions carry them (the spec calls these label and confidence). -/
structure Detection where
  «class» : String
  score : ℚ
deriving DecidableEq

/-- The effects a handler performs on the world outside the app state. -/
inductive Effect where
  | Speak (msg : String)
  | SetBusy (b : Bool)
  | CameraRequest
  | ModelLoad
  | DetectPass (i : Nat)
  | Sleep (ms : Nat)
  | ScheduleReset (ms : Nat)
  | Fetch (endpoint mdl prompt : String)
  | ResetRun
  | RecognitionStart
  | ScheduleRetry (ms : Nat)
deriving DecidableEq

/-- The mutable state of `app.js`: module flags plus the DOM sinks the code
writes (status line, result area, spinner, video surface, attached stream).
Stopped media tracks are recorded in `stoppedTracks`. -/
structure AppState where
  statusText : String
  resultDiv : String
  isBusy : Bool
  shouldAutoListen : Bool
  processing : Bool
  cameraVisible : Bool
  camStream : Option (List Nat)
  stoppedTracks : List Nat
  modelLoaded : Bool
deriving DecidableEq

/-- The external world a command cycle interacts with: camera acquisition,
video readiness, model load, the three detection passes, the QA config and
the HTTP response the QA endpoint would return. -/
structure HttpResponse where
  ok : Bool
  status : Nat
  /-- `data.choices[0].message.content` when present. -/
  content : Option String
deriving DecidableEq

/-- `window.AppConfig`: empty strings stand for absent (falsy) fields. -/
structure QAConfig where
  apiKey : String
  endpoint : String
  model : String
deriving DecidableEq

structure Env where
  cameraViewPresent : Bool
  /-- `getUserMedia`: the stream's track ids, or a rejection's `err.message`. -/
  getUserMedia : Except String (List Nat)
  /-- Does the video fire `loadedmetadata`/`canplay` (true) or `error` (false)? -/
  videoReady : Bool
  /-- `cocoSsd.load()`: `none` is success, `some m` a rejection with message `m`. -/
  modelLoad : Option String
  /-- `objectDetectionModel.detect(cameraView)` on the i-th warm-up pass. -/
  passes : Nat → List Detection
  cfg : QAConfig
  qaResponse : HttpResponse

/-- State after the `load` handler: status set, recognition started. -/
def initialState : AppState where
  statusText := "Listening..."
  resultDiv := ""
  isBusy := false
  shouldAutoListen := true
  processing := false
  cameraVisible := false
  camStream := none
  stoppedTracks := []
  modelLoaded := false

/-! ### Command interpreter (the trigger sets of the `result` listener) -/

def detectTriggers : List String :=
  ["what's in front", "whats in front", "what is in front",
   "detect object", "detect objects"]

def helpTriggers : List String := ["help", "what can i say", "what can you do"]

def openCameraTriggers : List String := ["open camera", "start camera", "turn on camera"]

def closeCameraTriggers : List String := ["close camera", "stop camera", "turn off camera"]

def HELP_MESSAGE : String :=
  "You can say: open camera, what's in front, detect objects, or help."

/-- The intent taxonomy of the spec's Command Interpreter. -/
inductive Intent where
  | Help
  | OpenCamera
  | CloseCamera
  | Detect
  | FreeFormQuestion (text : String)
  | NoMatch
deriving DecidableEq

def matchesAny (triggers : List String) (transcript : String) : Bool :=
  triggers.any fun t => includes transcript t

/-- The classification implicit in the `result` listener's if-chain together
with `handleGeneralQuestion`'s empty-after-trim guard: lowercase, then first
match in the order help, open-camera, close-camera, detect; otherwise a
non-empty trimmed transcript is a free-form question and an empty one is no
match. -/
def classify (raw : String) : Intent :=
  let transcript := jsToLower raw
  if matchesAny helpTriggers transcript then .Help
  else if matchesAny openCameraTriggers transcript then .OpenCamera
  else if matchesAny closeCameraTriggers transcript then .CloseCamera
  else if matchesAny detectTriggers transcript then .Detect
  else
    let trimmed := jsTrim transcript
    if trimmed = "" then .NoMatch else .FreeFormQuestion trimmed

/-! ### Result narrator (`joinNatural`, `speakResults`) -/

/-- `/^[aeiou]/i.test(word)` -/
def isVowelStart (word : String) : Bool :=
  match word.data with
  | [] => false
  | c :: _ =>
    let l := c.toLower
    l = 'a' || l = 'e' || l = 'i' || l = 'o' || l = 'u'

/-- `toArticle` from `speakResults`. -/
def toArticle (word : String) : String := if isVowelStart word then "an" else "a"

/-- `joinNatural(items, conj)` from the source. -/
def joinNatural (items : List String) (conj : String) : String :=
  match items with
  | [] => ""
  | [x] => x
  | [x, y] => x ++ " " ++ conj ++ " " ++ y
  | xs => String.intercalate ", " xs.dropLast ++ " " ++ conj ++ " " ++ xs.getLastD ""

/-- Render one detection the way `speakResults` maps it:
`"{article} {name} with {pct}% confidence"` with `name = d.class || "object"`
and `pct = Math.round(d.score * 100)`. -/
def renderDetection (d : Detection) : String :=
  let name := if d.«class» = "" then "object" else d.«class»
  let pct := jsRound (d.score * 100)
  toArticle name ++ " " ++ name ++ " with " ++ toString pct ++ "% confidence"

/-- The message `speakResults` builds from a detection list. -/
def speakResultsMessage (detections : List Detection) : String :=
  if detections = [] then "I cannot clearly identify any objects."
  else "I detect " ++ joinNatural ((detections.take 5).map renderDetection) "and" ++ "."

/-- `speakResults`: writes the message to the result area, speaks it, and
schedules `resetApp` after 8000ms. -/
def speakResults (detections : List Detection) (s : AppState) :
    AppState × List Effect :=
  let message := speakResultsMessage detections
  ({ s with resultDiv := message },
   [Effect.Speak message, Effect.ScheduleReset 8000])

/-! ### Detection aggregator (the warm-up loop of `analyzeImage`) -/

/-- The `for (let i = 0; i < 3; i++)` warm-up loop: detect, filter to
`score > 0.5`, keep the pass with strictly more filtered detections, and
sleep 200ms after every pass but the last.  Returns the kept detections and
the effect trace of the loop. -/
def analyzeWarmup (passes : Nat → List Detection) : List Detection × List Effect :=
  (List.range 3).foldl
    (fun st i =>
      let best := st.1
      let detections := (passes i).filter fun p => decide (p.score > (0.5 : ℚ))
      let best' := if detections.length > best.length then detections else best
      let eff' := st.2 ++ [Effect.DetectPass i] ++
        (if i < 2 then [Effect.Sleep 200] else [])
      (best', eff'))
    ([], [])

/-- The filtered form of one pass, for stating the aggregator's contract. -/
def filteredPass (passes : Nat → List Detection) (i : Nat) : List Detection :=
  (passes i).filter fun p => decide (p.score > (0.5 : ℚ))

/-! ### `analyzeImage` (model load, warm-up loop, narration) -/

/-- `analyzeImage`.  The third component is `some m` when the body threw
(the model load rejected) with message `m`; the rejection propagates to the
caller's catch. -/
def analyzeImage (env : Env) (s : AppState) : AppState × List Effect × Option String :=
  if !env.cameraViewPresent then (s, [], none)
  else
    let s₁ := { s with processing := true, statusText := "Processing..." }
    let loadEffs : List Effect := if s₁.modelLoaded then [] else [Effect.ModelLoad]
    if !s₁.modelLoaded && env.modelLoad.isSome then
      (s₁, loadEffs, some (env.modelLoad.getD ""))
    else
      let s₂ := { s₁ with modelLoaded := true }
      let warm := analyzeWarmup env.passes
      let s₃ := { s₂ with processing := false }
      let sr := speakResults warm.1 s₃
      (sr.1, loadEffs ++ warm.2 ++ sr.2, none)

/-! ### `resetApp` -/

/-- `resetApp`: stop all tracks of the attached stream (if any), detach it,
hide the video surface, restore the idle status line, clear the busy state. -/
def resetApp (s : AppState) : AppState :=
  let stopped :=
    match s.camStream with
    | some tracks => s.stoppedTracks ++ tracks
    | none => s.stoppedTracks
  { s with
    stoppedTracks := stopped
    camStream := none
    cameraVisible := false
    statusText := "Say 'Open camera' or 'What is in front of me?'"
    processing := false
    isBusy := false }

/-! ### `startCamera` -/

/-- The catch block's message: `err.message` when truthy, else the fixed
fallback. -/
def cameraCatchMsg (errMsg : String) : String :=
  if errMsg = "" then "Unable to access the camera." else errMsg

/-- `startCamera(options)`.  Third component: `some m` when the function
threw (only the missing-video-element guard throws out of it; every other
failure is caught by its own try/catch, spoken, displayed, and the `finally`
clears the processing/busy flags). -/
def startCamera (env : Env) (analyze : Bool) (s : AppState) :
    AppState × List Effect × Option String :=
  if !env.cameraViewPresent then
    (s, [Effect.Speak "Camera is not available."], some "cameraView element missing")
  else
    let s₁ := { s with isBusy := true, processing := true, statusText := "Opening camera..." }
    let e₁ : List Effect := [Effect.SetBusy true, Effect.CameraRequest]
    match env.getUserMedia with
    | .error errMsg =>
      let msg := cameraCatchMsg errMsg
      ({ s₁ with statusText := msg, processing := false, isBusy := false },
       e₁ ++ [Effect.Speak msg, Effect.SetBusy false], none)
    | .ok tracks =>
      let s₂ := { s₁ with camStream := some tracks }
      if !env.videoReady then
        let msg := cameraCatchMsg ""
        ({ s₂ with statusText := msg, processing := false, isBusy := false },
         e₁ ++ [Effect.Speak msg, Effect.SetBusy false], none)
      else
        let readyMsg := if analyze then "Camera ready." else "Camera on."
        let s₃ := { s₂ with cameraVisible := true, statusText := readyMsg }
        if analyze then
          let ai := analyzeImage env s₃
          match ai.2.2 with
          | some errMsg =>
            let msg := cameraCatchMsg errMsg
            ({ ai.1 with statusText := msg, processing := false, isBusy := false },
             e₁ ++ ai.2.1 ++ [Effect.Speak msg, Effect.SetBusy false], none)
          | none =>
            ({ ai.1 with processing := false, isBusy := false },
             e₁ ++ ai.2.1 ++ [Effect.SetBusy false], none)
        else
          ({ s₃ with processing := false, isBusy := false },
           e₁ ++ [Effect.SetBusy false], none)

/-! ### Question-answering bridge (`askLLM`, `handleGeneralQuestion`) -/

/-- `askLLM(prompt, cfg)`: one fetch to the configured (or default) endpoint
and model; non-ok status throws carrying the status; a missing
`choices[0].message.content` falls back to a fixed string; the text is
trimmed.  Returns the fetch effect and the outcome. -/
def askLLM (prompt : String) (cfg : QAConfig) (resp : HttpResponse) :
    List Effect × Except Nat String :=
  let endpoint := if cfg.endpoint = "" then "https://api.openai.com/v1/chat/completions"
    else cfg.endpoint
  let mdl := if cfg.model = "" then "gpt-3.5-turbo" else cfg.model
  ([Effect.Fetch endpoint mdl prompt],
   if !resp.ok then .error resp.status
   else .ok (jsTrim (resp.content.getD "I don't have an answer yet.")))

/-- `handleGeneralQuestion(queryText)`: empty-after-trim transcripts only
restore the status line; with no API key a fixed unavailability message is
displayed and spoken without any fetch; otherwise the answer (or the fixed
error message on failure) is displayed and spoken, with the spinner cleared
in the `finally`. -/
def handleGeneralQuestion (env : Env) (s : AppState) (queryText : String) :
    AppState × List Effect :=
  let trimmed := jsTrim queryText
  if trimmed = "" then ({ s with statusText := "Listening..." }, [])
  else if env.cfg.apiKey = "" then
    let msg := "General Q&A is not configured. Please add your API key."
    ({ s with resultDiv := msg }, [Effect.Speak msg])
  else
    let s₁ := { s with processing := true, statusText := "Thinking..." }
    let r := askLLM trimmed env.cfg env.qaResponse
    match r.2 with
    | .ok answer =>
      ({ s₁ with resultDiv := answer, statusText := "Listening...", processing := false },
       r.1 ++ [Effect.Speak answer])
    | .error _ =>
      let errMsg := "I couldn't get an answer right now."
      ({ s₁ with resultDiv := errMsg, processing := false },
       r.1 ++ [Effect.Speak errMsg])

/-! ### The recognition event listeners -/

/-- The `result` listener: lowercase the transcript, then the if-chain over
the trigger sets; the final catch converts an escaped exception into a spoken
and displayed error message. -/
def resultListener (env : Env) (s : AppState) (raw : String) :
    AppState × List Effect :=
  let transcript := jsToLower raw
  if matchesAny helpTriggers transcript then
    ({ s with statusText := HELP_MESSAGE }, [Effect.Speak HELP_MESSAGE])
  else if matchesAny openCameraTriggers transcript then
    let r := startCamera env false s
    match r.2.2 with
    | some _ =>
      ({ r.1 with statusText := "An error occurred." },
       r.2.1 ++ [Effect.Speak "I encountered an error processing your request."])
    | none =>
      ({ r.1 with statusText := "Camera is on. Listening...", shouldAutoListen := true },
       r.2.1 ++ [Effect.Speak "Camera is on. How can I help you?"])
  else if matchesAny closeCameraTriggers transcript then
    let s₁ := resetApp s
    ({ s₁ with statusText := "Camera is off. Listening...", shouldAutoListen := true },
     [Effect.ResetRun, Effect.Speak "Camera is off."])
  else if matchesAny detectTriggers transcript then
    let r := startCamera env true s
    match r.2.2 with
    | some _ =>
      ({ r.1 with statusText := "An error occurred." },
       r.2.1 ++ [Effect.Speak "I encountered an error processing your request."])
    | none => (r.1, r.2.1)
  else
    handleGeneralQuestion env s transcript

/-- The `end` listener: restart listening only if `shouldAutoListen && !isBusy`. -/
def endListener (s : AppState) : AppState × List Effect :=
  if s.shouldAutoListen && !s.isBusy then
    ({ s with statusText := "Listening..." }, [Effect.RecognitionStart])
  else (s, [])

/-- The `error` listener: display the transient error status and schedule the
800ms retry. -/
def errorListener (s : AppState) : AppState × List Effect :=
  ({ s with statusText := "Speech recognition error. Retrying..." },
   [Effect.ScheduleRetry 800])

/-- The body of the error listener's 800ms `setTimeout`: restart listening
only if `shouldAutoListen && !isBusy`. -/
def errorRetryTimeout (s : AppState) : AppState × List Effect :=
  if s.shouldAutoListen && !s.isBusy then (s, [Effect.RecognitionStart])
  else (s, [])

/-! ### Reachable states -/

/-- States reachable from start-up by the program's event handlers (transcript
results, recognition end/error events, the error listener's retry timer, and
the scheduled reset). -/
inductive Reachable : AppState → Prop where
  | init : Reachable initialState
  | result (env : Env) (raw : String) {s : AppState} :
      Reachable s → Reachable (resultListener env s raw).1
  | recEnd {s : AppState} : Reachable s → Reachable (endListener s).1
  | recError {s : AppState} : Reachable s → Reachable (errorListener s).1
  | recRetry {s : AppState} : Reachable s → Reachable (errorRetryTimeout s).1
  | reset {s : AppState} : Reachable s → Reachable (resetApp s)

/-! ### Concrete fixtures used by witnesses -/

/-- A benign environment: camera present and ready, model loads, no
detections, no QA key configured. -/
def testEnv : Env where
  cameraViewPresent := true
  getUserMedia := .ok [0]
  videoReady := true
  modelLoad := none
  passes := fun _ => []
  cfg := { apiKey := "", endpoint := "", model := "" }
  qaResponse := { ok := true, status := 200, content := none }

/-- An environment whose camera acquisition fails. -/
def camFailEnv : Env :=
  { testEnv with getUserMedia := .error "Permission denied" }

/-- An environment with a QA key configured whose endpoint answers HTTP 500. -/
def qaFailEnv : Env :=
  { testEnv with
    cfg := { apiKey := "sk-test", endpoint := "", model := "" }
    qaResponse := { ok := false, status := 500, content := none } }

/-- A state caught in the middle of a busy cycle. -/
def busyState : AppState := { initialState with isBusy := true }

/-- One step of the warm-up loop's "keep the best pass" comparison. -/
def pick (best detections : List Detection) : List Detection :=
  if detections.length > best.length then detections else best

/-- Three synthetic passes whose filtered detection counts are [1, 3, 2]. -/
def tiePasses : Nat → List Detection := fun i =>
  if i = 0 then [⟨"a", 1⟩]
  else if i = 1 then [⟨"b", 1⟩, ⟨"c", 1⟩, ⟨"d", 1⟩]
  else [⟨"e", 1⟩, ⟨"f", 1⟩]

/-! ## Theorems -/

/-! ### Narrator lemmas -/

theorem joinNatural_two (x y : String) : joinNatural [x, y] "and" = x ++ " and " ++ y := by
  apply String.ext
  simp [joinNatural]

theorem joinNatural_ge3 (x y z : String) (rest : List String) :
    joinNatural (x :: y :: z :: rest) "and" =
      String.intercalate ", " ((x :: y :: z :: rest).dropLast) ++ " and " ++
        ((x :: y :: z :: rest).getLastD "") := by
  apply String.ext
  simp [joinNatural]

/-- C3: the narrator returns exactly "I cannot clearly identify any objects."
on empty input; otherwise it takes at most the first 5 detections in input
order and renders each as "{article} {label} with {round(confidence*100)}%
confidence", with article "an" iff the label starts with a vowel letter
case-insensitively and "a" otherwise; one item gives "I detect an apple with
97% confidence." on [{label:"apple",confidence:0.97}]; two items are joined
as "X and Y". -/
theorem c3_narrator (ds : List Detection) (d d₁ d₂ : Detection) (w : String) :
    speakResultsMessage [] = "I cannot clearly identify any objects."
    ∧ (ds ≠ [] → speakResultsMessage ds =
        "I detect " ++ joinNatural ((ds.take 5).map renderDetection) "and" ++ ".")
    ∧ (d.«class» ≠ "" → renderDetection d =
        toArticle d.«class» ++ " " ++ d.«class» ++ " with "
          ++ toString (jsRound (d.score * 100)) ++ "% confidence")
    ∧ (∀ c rest, w.data = c :: rest →
        (toArticle w = "an" ↔ (c.toLower = 'a' ∨ c.toLower = 'e' ∨ c.toLower = 'i'
          ∨ c.toLower = 'o' ∨ c.toLower = 'u')))
    ∧ (w.data = [] → toArticle w = "a")
    ∧ speakResultsMessage [⟨"apple", (0.97 : ℚ)⟩] = "I detect an apple with 97% confidence."
    ∧ speakResultsMessage [d₁, d₂] =
        "I detect " ++ renderDetection d₁ ++ " and " ++ renderDetection d₂ ++ "." := by
  have happle : jsRound ((0.97 : ℚ) * 100) = 97 := by norm_num [jsRound]
  refine ⟨by decide, ?_, ?_, ?_, ?_, ?_, ?_⟩
  · intro h
    simp [speakResultsMessage, h]
  · intro h
    simp [renderDetection, h]
  · intro c rest hc
    constructor
    · intro ha
      by_contra hv
      push_neg at hv
      have : isVowelStart w = false := by
        simp [isVowelStart, hc, hv.1, hv.2.1, hv.2.2.1, hv.2.2.2.1, hv.2.2.2.2]
      simp [toArticle, this] at ha
    · intro hv
      have : isVowelStart w = true := by
        simp [isVowelStart, hc]
        tauto
      simp [toArticle, this]
  · intro h
    simp [toArticle, isVowelStart, h]
  · simp only [speakResultsMessage, renderDetection, List.take, List.map, joinNatural, happle]
    decide
  · have h2 : ([d₁, d₂] : List Detection) ≠ [] := by simp
    simp only [speakResultsMessage, if_neg h2, List.take, List.map]
    rw [joinNatural_two]
    apply String.ext
    simp

/-- Witness for C3 at a concrete two-item input. -/
theorem c3_witness :
    speakResultsMessage [⟨"apple", (0.97 : ℚ)⟩, ⟨"banana", (0.8 : ℚ)⟩] =
      "I detect an apple with 97% confidence and a banana with 80% confidence." := by
  have h := (c3_narrator [⟨"apple", (0.97 : ℚ)⟩, ⟨"banana", (0.8 : ℚ)⟩]
      ⟨"apple", (0.97 : ℚ)⟩ ⟨"apple", (0.97 : ℚ)⟩ ⟨"banana", (0.8 : ℚ)⟩ "apple").2.2.2.2.2.2
  rw [h]
  have h97 : jsRound ((0.97 : ℚ) * 100) = 97 := by norm_num [jsRound]
  have h80 : jsRound ((0.8 : ℚ) * 100) = 80 := by norm_num [jsRound]
  simp only [renderDetection, h97, h80]
  decide

/-- C4 as stated is false: `joinNatural` puts no comma before the final
conjunction, so three items render "X, Y and Z", not the Oxford-style
"X, Y, and Z" the claim requires. -/
theorem c4_counterexample :
    speakResultsMessage [⟨"apple", (0.9 : ℚ)⟩, ⟨"banana", (0.8 : ℚ)⟩, ⟨"car", (0.7 : ℚ)⟩]
      ≠ "I detect an apple with 90% confidence, a banana with 80% confidence, and a car with 70% confidence." := by
  have h90 : jsRound ((0.9 : ℚ) * 100) = 90 := by norm_num [jsRound]
  have h80 : jsRound ((0.8 : ℚ) * 100) = 80 := by norm_num [jsRound]
  have h70 : jsRound ((0.7 : ℚ) * 100) = 70 := by norm_num [jsRound]
  simp only [speakResultsMessage, renderDetection, List.take, List.map, joinNatural,
    String.intercalate, String.intercalate.go, List.dropLast, List.getLastD,
    h90, h80, h70]
  decide

/-- C4 amended: for three or more detections the narrator joins the rendered
items with ", " between all but the last pair and a plain " and " (no comma)
before the final item, wrapping the result as "I detect {joined}.". -/
theorem c4_amended (ds : List Detection) (h : 3 ≤ ds.length) :
    speakResultsMessage ds =
      "I detect " ++ (String.intercalate ", " (((ds.take 5).map renderDetection).dropLast)
        ++ " and " ++ ((ds.take 5).map renderDetection).getLastD "") ++ "." := by
  match ds, h with
  | a :: b :: c :: rest, _ =>
    have hne : (a :: b :: c :: rest : List Detection) ≠ [] := by simp
    simp only [speakResultsMessage, if_neg hne, List.take, List.map]
    rw [joinNatural_ge3]

/-- Witness for C4's amended theorem at a concrete three-item input. -/
theorem c4_amended_witness :
    speakResultsMessage [⟨"apple", (0.9 : ℚ)⟩, ⟨"banana", (0.8 : ℚ)⟩, ⟨"car", (0.7 : ℚ)⟩]
      = "I detect an apple with 90% confidence, a banana with 80% confidence and a car with 70% confidence." := by
  have h90 : jsRound ((0.9 : ℚ) * 100) = 90 := by norm_num [jsRound]
  have h80 : jsRound ((0.8 : ℚ) * 100) = 80 := by norm_num [jsRound]
  have h70 : jsRound ((0.7 : ℚ) * 100) = 70 := by norm_num [jsRound]
  rw [c4_amended _ (by decide)]
  simp only [renderDetection, List.take, List.map, String.intercalate,
    String.intercalate.go, List.dropLast, List.getLastD, h90, h80, h70]
  decide

/-! ### Aggregator lemmas -/

theorem analyzeWarmup_fst (passes : Nat → List Detection) :
    (analyzeWarmup passes).1 =
      pick (pick (pick [] (filteredPass passes 0)) (filteredPass passes 1))
        (filteredPass passes 2) := rfl

theorem analyzeWarmup_snd (passes : Nat → List Detection) :
    (analyzeWarmup passes).2 =
      [Effect.DetectPass 0, Effect.Sleep 200, Effect.DetectPass 1, Effect.Sleep 200,
       Effect.DetectPass 2] := rfl

theorem pick_nil (a : List Detection) : pick [] a = a := by
  cases a <;> simp [pick]

/-- C5: the warm-up runs exactly 3 passes with a 200ms pause between
consecutive passes and none after the last; each pass is filtered to
detections with score strictly above 0.5; the kept pass is the one with the
largest filtered count, ties favoring the earliest pass; and when every
pass's filtered count is 0 the result is the empty list. -/
theorem c5_aggregator (passes : Nat → List Detection) :
    (analyzeWarmup passes).2 =
      [Effect.DetectPass 0, Effect.Sleep 200, Effect.DetectPass 1, Effect.Sleep 200,
       Effect.DetectPass 2]
    ∧ (analyzeWarmup passes).1.length =
        max (max (filteredPass passes 0).length (filteredPass passes 1).length)
          (filteredPass passes 2).length
    ∧ ((∀ i, i < 3 → filteredPass passes i = []) → (analyzeWarmup passes).1 = [])
    ∧ ((filteredPass passes 1).length ≤ (filteredPass passes 0).length →
       (filteredPass passes 2).length ≤ (filteredPass passes 0).length →
        (analyzeWarmup passes).1 = filteredPass passes 0)
    ∧ ((filteredPass passes 0).length < (filteredPass passes 1).length →
       (filteredPass passes 2).length ≤ (filteredPass passes 1).length →
        (analyzeWarmup passes).1 = filteredPass passes 1)
    ∧ ((filteredPass passes 0).length < (filteredPass passes 2).length →
       (filteredPass passes 1).length < (filteredPass passes 2).length →
        (analyzeWarmup passes).1 = filteredPass passes 2) := by
  refine ⟨analyzeWarmup_snd passes, ?_, ?_, ?_, ?_, ?_⟩
  · rw [analyzeWarmup_fst, pick_nil]
    unfold pick
    simp only [Nat.max_def]
    split_ifs <;> omega
  · intro h
    rw [analyzeWarmup_fst, pick_nil, h 0 (by omega), h 1 (by omega), h 2 (by omega)]
    simp [pick]
  · intro h1 h2
    rw [analyzeWarmup_fst, pick_nil]
    have hin : pick (filteredPass passes 0) (filteredPass passes 1) =
        filteredPass passes 0 := by
      unfold pick
      rw [if_neg (by omega)]
    rw [hin]
    unfold pick
    rw [if_neg (by omega)]
  · intro h1 h2
    rw [analyzeWarmup_fst, pick_nil]
    have hin : pick (filteredPass passes 0) (filteredPass passes 1) =
        filteredPass passes 1 := by
      unfold pick
      rw [if_pos (by omega)]
    rw [hin]
    unfold pick
    rw [if_neg (by omega)]
  · intro h1 h2
    rw [analyzeWarmup_fst, pick_nil]
    rcases Nat.lt_or_ge (filteredPass passes 0).length (filteredPass passes 1).length
      with hlt | hge
    · have hin : pick (filteredPass passes 0) (filteredPass passes 1) =
          filteredPass passes 1 := by
        unfold pick
        rw [if_pos (by omega)]
      rw [hin]
      unfold pick
      rw [if_pos (by omega)]
    · have hin : pick (filteredPass passes 0) (filteredPass passes 1) =
          filteredPass passes 0 := by
        unfold pick
        rw [if_neg (by omega)]
      rw [hin]
      unfold pick
      rw [if_pos (by omega)]

/-- Witness for C5 at synthetic passes with filtered counts [1, 3, 2]: the
kept pass is the second. -/
theorem c5_witness : (analyzeWarmup tiePasses).1 = filteredPass tiePasses 1 := by
  have h0 : (filteredPass tiePasses 0).length = 1 := by
    norm_num [filteredPass, tiePasses, List.filter]
  have h1 : (filteredPass tiePasses 1).length = 3 := by
    norm_num [filteredPass, tiePasses, List.filter]
  have h2 : (filteredPass tiePasses 2).length = 2 := by
    norm_num [filteredPass, tiePasses, List.filter]
  exact (c5_aggregator tiePasses).2.2.2.2.1 (by omega) (by omega)

/-! ### Whitespace lemmas for the classifier -/

theorem ws_toLower {c : Char} (h : c.isWhitespace = true) : c.toLower = c := by
  simp [Char.isWhitespace] at h
  rcases h with ((h | h) | h) | h <;> subst h <;> decide

theorem hasSubstr_ws {c₀ : Char} {rest hay : List Char} (hc : c₀.isWhitespace = false)
    (hws : ∀ c ∈ hay, c.isWhitespace = true) : hasSubstr (c₀ :: rest) hay = false := by
  induction hay with
  | nil => rfl
  | cons c t ih =>
    have hcw : c.isWhitespace = true := hws c (by simp)
    have hne : (c₀ == c) = false := by
      rw [beq_eq_false_iff_ne]
      intro he
      rw [he, hcw] at hc
      cases hc
    simp only [hasSubstr, List.isPrefixOf, hne, Bool.false_and, Bool.false_or]
    exact ih fun d hd => hws d (by simp [hd])

theorem matchesAny_ws (ts : List String) (transcript : String)
    (hws : ∀ c ∈ transcript.data, c.isWhitespace = true)
    (hts : ∀ t ∈ ts, t.data ≠ [] ∧ (t.data.headD ' ').isWhitespace = false) :
    matchesAny ts transcript = false := by
  simp only [matchesAny, List.any_eq_false]
  intro t ht
  obtain ⟨hne, hh⟩ := hts t ht
  cases htd : t.data with
  | nil => exact absurd htd hne
  | cons c rest =>
    rw [htd] at hh
    simp only [List.headD_cons] at hh
    simp only [includes, htd]
    simp [hasSubstr_ws hh hws]

theorem jsTrim_ws {s : String} (hws : ∀ c ∈ s.data, c.isWhitespace = true) :
    jsTrim s = "" := by
  have h1 : s.data.dropWhile Char.isWhitespace = [] :=
    List.dropWhile_eq_nil_iff.mpr hws
  apply String.ext
  simp [jsTrim, h1]

theorem jsToLower_ws {s : String} (hws : ∀ c ∈ s.data, c.isWhitespace = true) :
    ∀ c ∈ (jsToLower s).data, c.isWhitespace = true := by
  intro c hc
  simp only [jsToLower, List.mem_map] at hc
  obtain ⟨c', hc', rfl⟩ := hc
  rw [ws_toLower (hws c' hc')]
  exact hws c' hc'

/-- C2: classification is case-insensitive substring matching against the
fixed trigger sets with first match winning in the order help > open-camera
> close-camera > detect > fallback-to-question; a non-empty transcript
matching no set falls through to the QA bridge, while a whitespace-only (or
empty) transcript classifies as NoMatch, performs no effect, and in
particular never reaches the QA bridge's network or speech paths. -/
theorem c2_classify (raw : String) (env : Env) (s : AppState) :
    (∀ t₁ t₂ : String, jsToLower t₁ = jsToLower t₂ → classify t₁ = classify t₂)
    ∧ (matchesAny helpTriggers (jsToLower raw) = true → classify raw = .Help)
    ∧ (matchesAny helpTriggers (jsToLower raw) = false →
        matchesAny openCameraTriggers (jsToLower raw) = true →
        classify raw = .OpenCamera)
    ∧ (matchesAny helpTriggers (jsToLower raw) = false →
        matchesAny openCameraTriggers (jsToLower raw) = false →
        matchesAny closeCameraTriggers (jsToLower raw) = true →
        classify raw = .CloseCamera)
    ∧ (matchesAny helpTriggers (jsToLower raw) = false →
        matchesAny openCameraTriggers (jsToLower raw) = false →
        matchesAny closeCameraTriggers (jsToLower raw) = false →
        matchesAny detectTriggers (jsToLower raw) = true →
        classify raw = .Detect)
    ∧ (matchesAny helpTriggers (jsToLower raw) = false →
        matchesAny openCameraTriggers (jsToLower raw) = false →
        matchesAny closeCameraTriggers (jsToLower raw) = false →
        matchesAny detectTriggers (jsToLower raw) = false →
        resultListener env s raw = handleGeneralQuestion env s (jsToLower raw)
        ∧ (jsTrim (jsToLower raw) ≠ "" →
            classify raw = .FreeFormQuestion (jsTrim (jsToLower raw))))
    ∧ ((∀ c ∈ raw.data, c.isWhitespace = true) →
        classify raw = .NoMatch
        ∧ (resultListener env s raw).2 = []
        ∧ (resultListener env s raw).1 = { s with statusText := "Listening..." }) := by
  refine ⟨?_, ?_, ?_, ?_, ?_, ?_, ?_⟩
  · intro t₁ t₂ h
    simp only [classify, h]
  · intro h1
    simp [classify, h1]
  · intro h1 h2
    simp [classify, h1, h2]
  · intro h1 h2 h3
    simp [classify, h1, h2, h3]
  · intro h1 h2 h3 h4
    simp [classify, h1, h2, h3, h4]
  · intro h1 h2 h3 h4
    constructor
    · simp [resultListener, h1, h2, h3, h4]
    · intro htrim
      simp [classify, h1, h2, h3, h4, htrim]
  · intro hws
    have lows := jsToLower_ws hws
    have hm1 : matchesAny helpTriggers (jsToLower raw) = false :=
      matchesAny_ws _ _ lows (by decide)
    have hm2 : matchesAny openCameraTriggers (jsToLower raw) = false :=
      matchesAny_ws _ _ lows (by decide)
    have hm3 : matchesAny closeCameraTriggers (jsToLower raw) = false :=
      matchesAny_ws _ _ lows (by decide)
    have hm4 : matchesAny detectTriggers (jsToLower raw) = false :=
      matchesAny_ws _ _ lows (by decide)
    have htrim : jsTrim (jsToLower raw) = "" := jsTrim_ws lows
    refine ⟨?_, ?_, ?_⟩
    · simp [classify, hm1, hm2, hm3, hm4, htrim]
    · simp [resultListener, hm1, hm2, hm3, hm4, handleGeneralQuestion, htrim]
    · simp [resultListener, hm1, hm2, hm3, hm4, handleGeneralQuestion, htrim]

/-- Witness for C2 at the whitespace-only transcript "   ". -/
theorem c2_witness :
    classify "   " = Intent.NoMatch
    ∧ (resultListener testEnv initialState "   ").2 = [] := by
  have h := (c2_classify "   " testEnv initialState).2.2.2.2.2.2 (by decide)
  exact ⟨h.1, h.2.1⟩

/-- C6: with no API key the QA bridge answers with the fixed unavailability
message and performs no fetch; with a key, a non-ok HTTP status yields an
error carrying the status; an ok response missing
`choices[0].message.content` yields the fixed fallback string rather than an
error. -/
theorem c6_qa_bridge (env : Env) (s : AppState) (q prompt : String)
    (resp : HttpResponse) (cfg : QAConfig) :
    (env.cfg.apiKey = "" → jsTrim q ≠ "" →
      handleGeneralQuestion env s q =
        ({ s with resultDiv := "General Q&A is not configured. Please add your API key." },
         [Effect.Speak "General Q&A is not configured. Please add your API key."])
      ∧ ∀ a b p, Effect.Fetch a b p ∉ (handleGeneralQuestion env s q).2)
    ∧ (resp.ok = false → (askLLM prompt cfg resp).2 = .error resp.status)
    ∧ (resp.ok = true → resp.content = none →
        (askLLM prompt cfg resp).2 = .ok "I don't have an answer yet.") := by
  refine ⟨?_, ?_, ?_⟩
  · intro hk ht
    have he : handleGeneralQuestion env s q =
        ({ s with resultDiv := "General Q&A is not configured. Please add your API key." },
         [Effect.Speak "General Q&A is not configured. Please add your API key."]) := by
      simp [handleGeneralQuestion, ht, hk]
    refine ⟨he, ?_⟩
    intro a b p
    rw [he]
    simp
  · intro h
    simp [askLLM, h]
  · intro h hc
    simp only [askLLM, h, Bool.not_true, Bool.false_eq_true, if_false, hc, Option.getD_none]
    have : jsTrim "I don't have an answer yet." = "I don't have an answer yet." := by decide
    rw [this]

/-- Witness for C6: unconfigured key with the benign fixture, HTTP 500, and
an ok response missing the content field. -/
theorem c6_witness :
    handleGeneralQuestion testEnv initialState "hi" =
      ({ initialState with
          resultDiv := "General Q&A is not configured. Please add your API key." },
       [Effect.Speak "General Q&A is not configured. Please add your API key."])
    ∧ (askLLM "hi" { apiKey := "k", endpoint := "", model := "" }
        { ok := false, status := 500, content := none }).2 = .error 500
    ∧ (askLLM "hi" { apiKey := "k", endpoint := "", model := "" }
        { ok := true, status := 200, content := none }).2 =
          .ok "I don't have an answer yet." := by
  refine ⟨((c6_qa_bridge testEnv initialState "hi" "hi"
      { ok := false, status := 500, content := none }
      { apiKey := "k", endpoint := "", model := "" }).1 rfl (by decide)).1, ?_, ?_⟩
  · exact (c6_qa_bridge testEnv initialState "hi" "hi"
      { ok := false, status := 500, content := none }
      { apiKey := "k", endpoint := "", model := "" }).2.1 rfl
  · exact (c6_qa_bridge testEnv initialState "hi" "hi"
      { ok := true, status := 200, content := none }
      { apiKey := "k", endpoint := "", model := "" }).2.2 rfl rfl

/-- C9: reset is idempotent, and with no attached stream it is a no-op with
respect to the stream (no track is stopped, the stream stays detached). -/
theorem c9_reset_idempotent (s : AppState) :
    resetApp (resetApp s) = resetApp s
    ∧ (s.camStream = none → (resetApp s).stoppedTracks = s.stoppedTracks
        ∧ (resetApp s).camStream = s.camStream) := by
  constructor
  · simp [resetApp]
  · intro h
    simp [resetApp, h]

/-- Witness for C9 at the startup state (no active stream). -/
theorem c9_witness :
    resetApp (resetApp initialState) = resetApp initialState
    ∧ (resetApp initialState).stoppedTracks = initialState.stoppedTracks := by
  exact ⟨(c9_reset_idempotent initialState).1,
    ((c9_reset_idempotent initialState).2 rfl).1⟩

/-- C8: a recognition error only displays the transient status and schedules
one retry after the fixed 800ms backoff (it never restarts immediately and
never throws); the retry body and the end listener restart listening exactly
when autoListen holds and busy is false, so neither restart can run during a
busy cycle. -/
theorem c8_recognition_recovery (s : AppState) :
    (errorListener s).1 = { s with statusText := "Speech recognition error. Retrying..." }
    ∧ (errorListener s).2 = [Effect.ScheduleRetry 800]
    ∧ ((errorRetryTimeout s).2 = [Effect.RecognitionStart] ↔
        s.shouldAutoListen = true ∧ s.isBusy = false)
    ∧ ((endListener s).2 = [Effect.RecognitionStart] ↔
        s.shouldAutoListen = true ∧ s.isBusy = false)
    ∧ (s.isBusy = true → (errorRetryTimeout s).2 = [] ∧ (endListener s).2 = []) := by
  refine ⟨rfl, rfl, ?_, ?_, ?_⟩
  · unfold errorRetryTimeout
    split_ifs with hb
    · simp at hb
      simp [hb]
    · simp at hb ⊢
      intro ha
      rcases hb ha with h
      simp [h]
  · unfold endListener
    split_ifs with hb
    · simp at hb
      simp [hb]
    · simp at hb ⊢
      intro ha
      rcases hb ha with h
      simp [h]
  · intro hb
    unfold errorRetryTimeout endListener
    simp [hb]

/-- Witness for C8 at a busy state: no restart is emitted. -/
theorem c8_witness :
    (errorRetryTimeout busyState).2 = [] ∧ (endListener busyState).2 = [] :=
  (c8_recognition_recovery busyState).2.2.2.2 rfl

/-! ### State-preservation lemmas for the command cycles -/

theorem analyzeImage_autoListen (env : Env) (s : AppState) :
    (analyzeImage env s).1.shouldAutoListen = s.shouldAutoListen := by
  simp only [analyzeImage, speakResults]
  split_ifs <;> simp

theorem analyzeImage_busy (env : Env) (s : AppState) :
    (analyzeImage env s).1.isBusy = s.isBusy := by
  simp only [analyzeImage, speakResults]
  split_ifs <;> simp

theorem startCamera_thrown (env : Env) (a : Bool) (s : AppState)
    (h : env.cameraViewPresent = false) :
    startCamera env a s =
      (s, [Effect.Speak "Camera is not available."], some "cameraView element missing") := by
  simp [startCamera, h]

theorem startCamera_clears (env : Env) (a : Bool) (s : AppState)
    (h : env.cameraViewPresent = true) :
    (startCamera env a s).1.isBusy = false
    ∧ (startCamera env a s).1.processing = false := by
  simp only [startCamera, h, Bool.not_true, Bool.false_eq_true, if_false]
  rcases hg : env.getUserMedia with m | tracks
  · simp
  · dsimp only
    split_ifs with hv ha
    · simp
    · split <;> simp
    · simp

theorem startCamera_autoListen (env : Env) (a : Bool) (s : AppState) :
    (startCamera env a s).1.shouldAutoListen = s.shouldAutoListen := by
  by_cases h : env.cameraViewPresent = true
  · simp only [startCamera, h, Bool.not_true, Bool.false_eq_true, if_false]
    rcases hg : env.getUserMedia with m | tracks
    · simp
    · dsimp only
      split_ifs with hv ha
      · simp
      · split <;> simp [analyzeImage_autoListen]
      · simp
  · rw [startCamera_thrown env a s (by simpa using h)]

theorem hgq_busy (env : Env) (s : AppState) (q : String) :
    (handleGeneralQuestion env s q).1.isBusy = s.isBusy := by
  simp only [handleGeneralQuestion]
  split_ifs
  · simp
  · simp
  · split <;> simp

theorem hgq_autoListen (env : Env) (s : AppState) (q : String) :
    (handleGeneralQuestion env s q).1.shouldAutoListen = s.shouldAutoListen := by
  simp only [handleGeneralQuestion]
  split_ifs
  · simp
  · simp
  · split <;> simp

theorem hgq_no_setbusy (env : Env) (s : AppState) (q : String) (b : Bool) :
    Effect.SetBusy b ∉ (handleGeneralQuestion env s q).2 := by
  simp only [handleGeneralQuestion]
  split_ifs
  · simp
  · simp
  · split <;> simp [askLLM]

theorem resetApp_autoListen (s : AppState) :
    (resetApp s).shouldAutoListen = s.shouldAutoListen := by
  simp [resetApp]

theorem resultListener_autoListen (env : Env) (s : AppState) (raw : String)
    (h : s.shouldAutoListen = true) :
    (resultListener env s raw).1.shouldAutoListen = true := by
  simp only [resultListener]
  split_ifs
  · simpa using h
  · rcases hr : (startCamera env false s).2.2 with _ | m
    · simp [hr, startCamera_autoListen, h]
    · simp [hr, startCamera_autoListen, h]
  · simp
  · rcases hr : (startCamera env true s).2.2 with _ | m
    · simp [hr, startCamera_autoListen, h]
    · simp [hr, startCamera_autoListen, h]
  · rw [hgq_autoListen]
    exact h

/-! ### C10: the autoListen flag is永 true -/

/-- C10: `shouldAutoListen` starts true and every assignment in the program
assigns true, so it is true in every reachable state; consequently the
restart guards after end/error events reduce to checking that busy is
false. -/
theorem c10_autoListen (s : AppState) (hs : Reachable s) :
    s.shouldAutoListen = true
    ∧ ((endListener s).2 = [Effect.RecognitionStart] ↔ s.isBusy = false)
    ∧ ((errorRetryTimeout s).2 = [Effect.RecognitionStart] ↔ s.isBusy = false) := by
  have hal : s.shouldAutoListen = true := by
    induction hs with
    | init => rfl
    | result env raw hr ih => exact resultListener_autoListen env _ raw ih
    | recEnd hr ih =>
      unfold endListener
      split_ifs <;> simpa using ih
    | recError hr ih => simpa [errorListener] using ih
    | recRetry hr ih =>
      unfold errorRetryTimeout
      split_ifs <;> simpa using ih
    | reset hr ih => simpa [resetApp_autoListen] using ih
  refine ⟨hal, ?_, ?_⟩
  · unfold endListener
    split_ifs with hb
    · simp at hb
      simp [hb.2]
    · simp [hal] at hb
      simp [hb]
  · unfold errorRetryTimeout
    split_ifs with hb
    · simp at hb
      simp [hb.2]
    · simp [hal] at hb
      simp [hb]

/-- Witness for C10 at the startup state. -/
theorem c10_witness :
    initialState.shouldAutoListen = true
    ∧ ((endListener initialState).2 = [Effect.RecognitionStart] ↔
        initialState.isBusy = false) := by
  have h := c10_autoListen initialState Reachable.init
  exact ⟨h.1, h.2.1⟩

/-! ### Busy-flag lemmas for C1 and C7 -/

theorem startCamera_busy_blind (env : Env) (a : Bool) (s : AppState) (b : Bool)
    (h : env.cameraViewPresent = true) :
    startCamera env a { s with isBusy := b } = startCamera env a s := by
  simp only [startCamera, h, Bool.not_true, Bool.false_eq_true, if_false]

theorem hgq_effects_blind (env : Env) (s : AppState) (q : String) (b : Bool) :
    (handleGeneralQuestion env { s with isBusy := b } q).2 =
      (handleGeneralQuestion env s q).2 := by
  simp only [handleGeneralQuestion]
  split_ifs
  · rfl
  · rfl
  · split <;> rfl

theorem trace_getLast2 (x : Effect) (l : List Effect) (e₁ e₂ : Effect) :
    (x :: (l ++ [e₁, e₂])).getLast? = some e₂ := by
  have h : x :: (l ++ [e₁, e₂]) = (x :: (l ++ [e₁])) ++ [e₂] := by simp
  rw [h, List.getLast?_concat]

theorem trace_getLast1 (x : Effect) (l : List Effect) (e : Effect) :
    (x :: (l ++ [e])).getLast? = some e := by
  have h : x :: (l ++ [e]) = (x :: l) ++ [e] := by simp
  rw [h, List.getLast?_concat]

theorem startCamera_trace (env : Env) (a : Bool) (s : AppState)
    (h : env.cameraViewPresent = true) :
    (startCamera env a s).2.1.head? = some (Effect.SetBusy true)
    ∧ (startCamera env a s).2.1.getLast? = some (Effect.SetBusy false) := by
  simp only [startCamera, h, Bool.not_true, Bool.false_eq_true, if_false]
  rcases hg : env.getUserMedia with m | tracks
  · simp
  · dsimp only
    split_ifs with hv ha
    · simp
    · split <;> simp [trace_getLast2, trace_getLast1]
    · simp

/-- C1 as stated is false: the `result` listener never consults `busy`, so a
transcript received while `busy == true` is dispatched all the same — here a
"detect objects" transcript arriving in a busy state still opens the camera
(a `CameraRequest` side effect is performed). -/
theorem c1_counterexample :
    busyState.isBusy = true
    ∧ Effect.CameraRequest ∈ (resultListener testEnv busyState "detect objects").2 := by
  constructor
  · rfl
  · decide

/-- C1 amended: dispatch is independent of the busy flag (the listener does
not consult it); `busy` is set to true at the start of every camera-open or
detect cycle and cleared when that cycle completes; help, close-camera and
question cycles never set `busy` (the question cycle leaves it untouched and
performs no busy assignment). -/
theorem c1_amended (env : Env) (s : AppState) (raw q : String) (a b : Bool) :
    (resultListener env { s with isBusy := b } raw).2 = (resultListener env s raw).2
    ∧ (env.cameraViewPresent = true →
        (startCamera env a s).1.isBusy = false
        ∧ (startCamera env a s).2.1.head? = some (Effect.SetBusy true)
        ∧ (startCamera env a s).2.1.getLast? = some (Effect.SetBusy false))
    ∧ (handleGeneralQuestion env s q).1.isBusy = s.isBusy
    ∧ (∀ c : Bool, Effect.SetBusy c ∉ (handleGeneralQuestion env s q).2) := by
  refine ⟨?_, ?_, hgq_busy env s q, fun c => hgq_no_setbusy env s q c⟩
  · by_cases hp : env.cameraViewPresent = true
    · simp only [resultListener]
      split_ifs
      · rfl
      · rw [startCamera_busy_blind env false s b hp]
      · rfl
      · rw [startCamera_busy_blind env true s b hp]
      · exact hgq_effects_blind env s _ b
    · have hp' : env.cameraViewPresent = false := by simpa using hp
      simp only [resultListener]
      split_ifs
      · rfl
      · rw [startCamera_thrown env false _ hp', startCamera_thrown env false s hp']
      · rfl
      · rw [startCamera_thrown env true _ hp', startCamera_thrown env true s hp']
      · exact hgq_effects_blind env s _ b
  · intro hp
    exact ⟨(startCamera_clears env a s hp).1, (startCamera_trace env a s hp).1,
      (startCamera_trace env a s hp).2⟩

/-- Witness for C1's amended theorem: with the camera present the detect
cycle's trace opens with busy set and closes with busy cleared, and the
final state has busy false. -/
theorem c1_amended_witness :
    (startCamera testEnv true initialState).1.isBusy = false
    ∧ (startCamera testEnv true initialState).2.1.head? = some (Effect.SetBusy true)
    ∧ (startCamera testEnv true initialState).2.1.getLast? = some (Effect.SetBusy false) :=
  (c1_amended testEnv initialState "x" "x" true false).2.1 rfl

/-! ### C7: failures are converted to messages and busy is always cleared -/

theorem startCamera_busy_false (env : Env) (a : Bool) (s : AppState)
    (hb : s.isBusy = false) : (startCamera env a s).1.isBusy = false := by
  by_cases hp : env.cameraViewPresent = true
  · exact (startCamera_clears env a s hp).1
  · rw [startCamera_thrown env a s (by simpa using hp)]
    exact hb

/-- C7: on every exit path of a command cycle busy ends false (camera/detect
cycles clear it in their finally; the other cycles never set it); a camera
acquisition failure and a model-load failure each surface their message as
the status text and speak it; a QA failure leaves busy untouched, clears the
spinner, and displays and speaks the fixed error message; and afterwards the
end/error restart guards fire again, so the listening loop is not halted. -/
theorem c7_failure_policy (env : Env) (s : AppState) (raw q m : String) (a : Bool) :
    (s.isBusy = false → (resultListener env s raw).1.isBusy = false)
    ∧ (env.cameraViewPresent = true →
        (startCamera env a s).1.isBusy = false
        ∧ (startCamera env a s).1.processing = false)
    ∧ (env.cameraViewPresent = true → env.getUserMedia = .error m → m ≠ "" →
        (startCamera env a s).1.statusText = m
        ∧ Effect.Speak m ∈ (startCamera env a s).2.1)
    ∧ (env.cameraViewPresent = true → env.videoReady = true → s.modelLoaded = false →
        env.modelLoad = some m → m ≠ "" →
        ∀ tracks, env.getUserMedia = .ok tracks →
          (startCamera env true s).1.statusText = m
          ∧ Effect.Speak m ∈ (startCamera env true s).2.1)
    ∧ (jsTrim q ≠ "" → env.cfg.apiKey ≠ "" → env.qaResponse.ok = false →
        (handleGeneralQuestion env s q).1.isBusy = s.isBusy
        ∧ (handleGeneralQuestion env s q).1.processing = false
        ∧ (handleGeneralQuestion env s q).1.resultDiv = "I couldn't get an answer right now."
        ∧ Effect.Speak "I couldn't get an answer right now." ∈ (handleGeneralQuestion env s q).2)
    ∧ (∀ s' : AppState, s'.isBusy = false → s'.shouldAutoListen = true →
        (endListener s').2 = [Effect.RecognitionStart]
        ∧ (errorRetryTimeout s').2 = [Effect.RecognitionStart]) := by
  refine ⟨?_, fun hp => startCamera_clears env a s hp, ?_, ?_, ?_, ?_⟩
  · intro hb
    simp only [resultListener]
    split_ifs
    · simpa using hb
    · rcases hr : (startCamera env false s).2.2 with _ | m' <;>
        simp [hr, startCamera_busy_false env false s hb]
    · simp [resetApp]
    · rcases hr : (startCamera env true s).2.2 with _ | m' <;>
        simp [hr, startCamera_busy_false env true s hb]
    · rw [hgq_busy]
      exact hb
  · intro hp hg hm
    simp only [startCamera, hp, Bool.not_true, Bool.false_eq_true, if_false, hg]
    simp [cameraCatchMsg, hm]
  · intro hp hv hml hsome hm tracks hg
    simp only [startCamera, hp, Bool.not_true, Bool.false_eq_true, if_false, hg]
    simp [hv, analyzeImage, hp, hml, hsome, cameraCatchMsg, hm]
  · intro ht hk hresp
    simp [handleGeneralQuestion, askLLM, ht, hk, hresp]
  · intro s' h1 h2
    simp [endListener, errorRetryTimeout, h1, h2]

/-- Witness for C7: a denied camera cycle ends with busy false and the
message surfaced; a failed QA cycle displays the fixed error message. -/
theorem c7_witness :
    (resultListener camFailEnv initialState "detect objects").1.isBusy = false
    ∧ (startCamera camFailEnv true initialState).1.statusText = "Permission denied"
    ∧ (handleGeneralQuestion qaFailEnv initialState "hi").1.resultDiv =
        "I couldn't get an answer right now." := by
  have h := c7_failure_policy camFailEnv initialState "detect objects" "hi"
    "Permission denied" true
  have h2 := c7_failure_policy qaFailEnv initialState "detect objects" "hi" "x" true
  exact ⟨h.1 rfl, (h.2.2.1 rfl rfl (by decide)).1,
    (h2.2.2.2.2.1 (by decide) (by decide) rfl).2.2.1⟩

end VisionAid
